import Mathlib

/-!
Verification of the `mqtt-connector` connection-lifecycle and
subscription-state machine against its specification.

The repository fragment exports `MqttConnector` from
`mqtt_connector.connector`; the module `connector.py` itself is not part of
the visible sources, so the connector's data model and operations below are
modelled from the specification's words (each such definition says so in its
doc comment).  The transport is an external collaborator and is modelled by
Boolean oracles: one giving the outcome of each connect attempt, one giving
the outcome of a transport-level subscribe for a given topic filter.
-/

namespace MqttConnector

/-- Modelled from the spec: the connection state enumeration of the missing
`connector.py` — one of Disconnected, Connecting, Connected, Reconnecting,
Disconnecting, Failed. -/
inductive ConnectionState where
  | Disconnected
  | Connecting
  | Connected
  | Reconnecting
  | Disconnecting
  | Failed
deriving DecidableEq, Repr

/-- Modelled from the spec: severity levels of structured log events. -/
inductive Level where
  | debug
  | info
  | warning
  | error
deriving DecidableEq, Repr

/-- Modelled from the spec: a structured log event (severity and message). -/
structure LogEvent where
  level : Level
  message : String
deriving DecidableEq, Repr

/-- Modelled from the spec: the error taxonomy of the missing `connector.py`. -/
inductive MqttError where
  | NotConnectedError
  | ConfigurationError
  | ConnectionError
  | OperationTimeout
deriving DecidableEq, Repr

/-- Modelled from the spec: a Subscription Registry entry — topic filter,
desired QoS, handler reference (handlers are identified by a numeric id; the
handler is absent when `subscribe` was called without one). -/
structure Subscription where
  topicFilter : String
  qos : Nat
  handler : Option Nat
deriving DecidableEq, Repr

/-- Modelled from the spec: an outbound message of the publish path. -/
structure OutboundMessage where
  topic : String
  payload : String
  qos : Nat
  retain : Bool
deriving DecidableEq, Repr

/-- Modelled from the spec: the observable state of one Connector instance of
the missing `connector.py`.  `transportSubs` is the set of topic filters
currently active on the transport, `liveConnections` counts live transport
connections, `outbox` the messages handed to the transport, `trace` is a
ghost history of every emitted log event (specification only), `delivered`
the events actually delivered to a registered callback, `pendingBackoff`
whether a reconnect backoff timer is in progress, and `inFlightResult` the
result that the attempt in progress resolves to while `Connecting`. -/
structure ConnectorState where
  connState : ConnectionState
  registry : List Subscription
  transportSubs : List String
  liveConnections : Nat
  logCallback : Option Nat
  delivered : List (Nat × LogEvent)
  trace : List LogEvent
  outbox : List OutboundMessage
  pendingBackoff : Bool
  inFlightResult : Bool
deriving DecidableEq, Repr

/-- Modelled from the spec: the freshly constructed Connector — initial state
`Disconnected`, empty Registry, nothing on the transport, no callback. -/
def init : ConnectorState :=
  { connState := .Disconnected
    registry := []
    transportSubs := []
    liveConnections := 0
    logCallback := none
    delivered := []
    trace := []
    outbox := []
    pendingBackoff := false
    inFlightResult := false }

/-- Modelled from the spec: the Event Emitter — synchronous, fire-and-forget
delivery of a log event to the registered callback; the event is recorded in
the ghost `trace` and, when a callback is registered, appended to
`delivered`; with no callback the event is dropped, never queued. -/
def emit (s : ConnectorState) (e : LogEvent) : ConnectorState :=
  match s.logCallback with
  | some cb =>
      { s with trace := s.trace ++ [e], delivered := s.delivered ++ [(cb, e)] }
  | none => { s with trace := s.trace ++ [e] }

/-- Modelled from the spec: `setLogCallback` (`set_log_callback` at the
Python surface) replaces any previously registered callback; `none` disables
emission. -/
def set_log_callback (s : ConnectorState) (cb : Option Nat) : ConnectorState :=
  { s with logCallback := cb }

/-- Split a character sequence into its `/`-separated topic levels. -/
def splitLevels : List Char → List (List Char)
  | [] => [[]]
  | c :: rest =>
      match splitLevels rest with
      | [] => []
      | lv :: lvs => if c = ('/') then [] :: lv :: lvs else (c :: lv) :: lvs

/-- Modelled from the spec: one topic-filter level is valid when it is
exactly a single-level wildcard, exactly a multi-level wildcard, or contains
no wildcard character. -/
def validLevel (lv : List Char) : Bool :=
  lv == (['+']) || lv == (['#'])
    || (!(lv.contains ('+')) && !(lv.contains ('#')))

/-- Modelled from the spec: topic-filter validation per protocol
rules — nonempty, every `/`-separated level valid, the multi-level wildcard
only as the last level. -/
def validFilter (f : String) : Bool :=
  !(f.data.isEmpty) &&
    ((splitLevels f.data).all validLevel
      && (splitLevels f.data).dropLast.all (fun lv => lv != (['#'])))

/-- Modelled from the spec: inserting a Registry entry — re-subscribing an
already registered filter replaces the entry, otherwise the entry is
appended (insertion order is preserved for replay). -/
def insertReplace (reg : List Subscription) (sub : Subscription) :
    List Subscription :=
  if reg.any (fun e => e.topicFilter == sub.topicFilter) then
    reg.map (fun e => if e.topicFilter == sub.topicFilter then sub else e)
  else
    reg ++ [sub]

/-- Modelled from the spec: removing the Registry entry for a filter (no-op
when absent). -/
def removeFilter (reg : List Subscription) (f : String) : List Subscription :=
  reg.filter (fun e => e.topicFilter != f)

/-- Adding a topic filter to the set of transport-active subscriptions. -/
def addTransportSub (ts : List String) (t : String) : List String :=
  if t ∈ ts then ts else ts ++ [t]

/-- Modelled from the spec: the transport half of a `subscribe` call, run on
the state whose Registry already holds the desired entry — when `Connected`
the transport subscribe is issued immediately (outcome given by the oracle
`tr`) and a transport failure is surfaced without mutating the Registry;
when not connected the request is deferred to the next replay. -/
def subscribeTransport (tr : String → Bool) (topic : String)
    (s1 : ConnectorState) : Except MqttError Unit × ConnectorState :=
  if s1.connState = .Connected then
    if tr topic then
      (.ok (), { s1 with transportSubs := addTransportSub s1.transportSubs topic })
    else
      (.error .ConnectionError, emit s1 ⟨.error, "transport subscribe failed"⟩)
  else
    (.ok (), s1)

/-- Modelled from the spec: `subscribe(topicFilter, qos, handler)` of the
missing `connector.py` — validates the filter shape before any transport
call, inserts/replaces the Registry entry, then runs the transport half.
The QoS and handler parameters are optional at the public surface (the
example calls `subscribe` with only a topic). -/
def subscribe (tr : String → Bool) (s : ConnectorState) (topic : String)
    (qos : Nat := 0) (handler : Option Nat := none) :
    Except MqttError Unit × ConnectorState :=
  if validFilter topic then
    subscribeTransport tr topic
      { s with registry := insertReplace s.registry ⟨topic, qos, handler⟩ }
  else
    (.error .ConfigurationError, emit s ⟨.error, "malformed topic filter"⟩)

/-- Modelled from the spec: `unsubscribe(topicFilter)` — removes the entry;
when `Connected` issues the transport unsubscribe; a no-op success when the
filter was never registered. -/
def unsubscribe (s : ConnectorState) (topic : String) :
    Except MqttError Unit × ConnectorState :=
  let s1 := { s with registry := removeFilter s.registry topic }
  if s.connState = .Connected then
    (.ok (), { s1 with transportSubs := s1.transportSubs.filter (fun t => t != topic) })
  else
    (.ok (), s1)

/-- Modelled from the spec: the body of `replayAll` — re-issue the transport
subscribe for each listed entry in insertion order, tolerating per-topic
failures (logged as error events, not fatal to the batch). -/
def replayList (tr : String → Bool) : List Subscription → ConnectorState →
    ConnectorState
  | [], s => s
  | sub :: rest, s =>
      if tr sub.topicFilter then
        replayList tr rest
          { s with transportSubs := addTransportSub s.transportSubs sub.topicFilter }
      else
        replayList tr rest (emit s ⟨.error, "replay subscribe failed"⟩)

/-- Modelled from the spec: `replayAll()` — called by the Connection State
Machine after every successful (re)connect; re-issues every current Registry
entry in insertion order. -/
def replayAll (tr : String → Bool) (s : ConnectorState) : ConnectorState :=
  replayList tr s.registry s

/-- First attempt index at which the connect-attempt oracle succeeds among
`n` attempts starting at index `k`, if any. -/
def firstSuccess (att : Nat → Bool) (k : Nat) (n : Nat) : Option Nat :=
  match n with
  | 0 => none
  | m + 1 => if att k then some k else firstSuccess att (k + 1) m

/-- Modelled from the spec: `publish` — fails fast with `NotConnectedError`
whenever the connection state is not `Connected` (returned as a failure
result, never an exception — the function is total), otherwise hands the
message to the transport.  Every failure is also emitted as a log event. -/
def publish (s : ConnectorState) (m : OutboundMessage) :
    Except MqttError Unit × ConnectorState :=
  if s.connState = .Connected then
    (.ok (), { s with outbox := s.outbox ++ [m] })
  else
    (.error .NotConnectedError, emit s ⟨.error, "publish while not connected"⟩)

/-- Modelled from the spec: the attempt phase shared by `connect()` and the
`Reconnecting` episode — up to `maxAttempts` bounded transport attempts (the
backoff waits between them have no observable state here); on the first
success the machine transitions to `Connected` and replays the Registry
onto the fresh transport; exhausting the cap transitions to `Failed` with
exactly one error-level event. -/
def connectAttempt (att : Nat → Bool) (tr : String → Bool) (maxAttempts : Nat)
    (s : ConnectorState) : Bool × ConnectorState :=
  if (firstSuccess att 0 maxAttempts).isSome then
    (true,
      replayAll tr
        (emit
          { s with
            connState := .Connected
            liveConnections := 1
            transportSubs := []
            pendingBackoff := false }
          ⟨.info, "state change to Connected"⟩))
  else
    (false,
      emit
        { s with
          connState := .Failed
          liveConnections := 0
          pendingBackoff := false }
        ⟨.error, "connection attempts exhausted"⟩)

/-- Modelled from the spec: `connect()` — idempotent while already
`Connecting` or `Connected` (returns the current attempt's success, or the
in-flight attempt's result, without opening a second transport connection);
otherwise enters `Connecting` and runs the attempt phase. -/
def connect (att : Nat → Bool) (tr : String → Bool) (maxAttempts : Nat)
    (s : ConnectorState) : Bool × ConnectorState :=
  if s.connState = .Connected then (true, s)
  else if s.connState = .Connecting then (s.inFlightResult, s)
  else
    connectAttempt att tr maxAttempts
      (emit
        { s with
          connState := .Connecting
          inFlightResult := (firstSuccess att 0 maxAttempts).isSome }
        ⟨.info, "state change to Connecting"⟩)

/-- Modelled from the spec: the transport-drop event — a network error while
`Connected` moves the machine to `Reconnecting` (when the reconnect policy
is enabled, starting the backoff timer) or to `Disconnected`; the transport
connection and its active subscriptions are lost either way. -/
def transportDrop (reconnectEnabled : Bool) (s : ConnectorState) : ConnectorState :=
  if s.connState = .Connected then
    if reconnectEnabled then
      emit { s with
        connState := .Reconnecting
        liveConnections := 0
        transportSubs := []
        pendingBackoff := true }
        ⟨.warning, "connection dropped, reconnecting"⟩
    else
      emit { s with connState := .Disconnected, liveConnections := 0, transportSubs := [] }
        ⟨.info, "connection dropped"⟩
  else s

/-- Modelled from the spec: resolution of a `Reconnecting` episode — bounded
retries with backoff capped at `maxAttempts`; a successful retry transitions
to `Connected` and replays the Registry; exhausting the cap transitions to
`Failed` and emits exactly one error-level event. -/
def reconnect (att : Nat → Bool) (tr : String → Bool) (maxAttempts : Nat)
    (s : ConnectorState) : ConnectorState :=
  if s.connState = .Reconnecting then (connectAttempt att tr maxAttempts s).2
  else s

/-- Modelled from the spec: `disconnect()` — idempotent, always reaches
`Disconnected`, cancelling any in-progress reconnect backoff; from any state
other than `Disconnected` it passes through `Disconnecting`, emitting one
event per transition. -/
def disconnect (s : ConnectorState) : ConnectorState :=
  if s.connState = .Disconnected then
    { s with pendingBackoff := false }
  else
    let s1 := emit { s with connState := .Disconnecting }
      ⟨.info, "state change to Disconnecting"⟩
    emit { s1 with
      connState := .Disconnected
      liveConnections := 0
      transportSubs := []
      pendingBackoff := false }
      ⟨.info, "state change to Disconnected"⟩

/-- Modelled from the spec: the operations an application and the
environment can perform on one Connector instance, used to quantify over
reachable states.  Connect and reconnect attempts carry their own
attempt-outcome oracle. -/
inductive Op where
  | connectOp (att : Nat → Bool) (maxAttempts : Nat)
  | subscribeOp (topic : String) (qos : Nat) (handler : Option Nat)
  | unsubscribeOp (topic : String)
  | publishOp (m : OutboundMessage)
  | disconnectOp
  | setCallbackOp (cb : Option Nat)
  | dropOp (reconnectEnabled : Bool)
  | reconnectOp (att : Nat → Bool) (maxAttempts : Nat)

/-- One step of the Connector: apply an operation (its caller-visible result
discarded), with transport subscribe outcomes given by `tr`. -/
def step (tr : String → Bool) (s : ConnectorState) (op : Op) : ConnectorState :=
  match op with
  | .connectOp att maxAttempts => (connect att tr maxAttempts s).2
  | .subscribeOp topic qos handler => (subscribe tr s topic qos handler).2
  | .unsubscribeOp topic => (unsubscribe s topic).2
  | .publishOp m => (publish s m).2
  | .disconnectOp => disconnect s
  | .setCallbackOp cb => set_log_callback s cb
  | .dropOp r => transportDrop r s
  | .reconnectOp att maxAttempts => reconnect att tr maxAttempts s

/-- Running a sequence of operations from a state. -/
def run (tr : String → Bool) (s : ConnectorState) (ops : List Op) : ConnectorState :=
  ops.foldl (step tr) s

/-- A subscribe or unsubscribe call, for stating Registry properties. -/
inductive RegOp where
  | sub (topic : String) (qos : Nat) (handler : Option Nat)
  | unsub (topic : String)

/-- A registry call is well-formed when a subscribe carries a valid topic
filter (unsubscribe never validates). -/
def regOpValid : RegOp → Bool
  | .sub topic _ _ => validFilter topic
  | .unsub _ => true

/-- Apply one registry call with the connection state forced to `st` at call
time (the adversarial environment choosing the state of each call). -/
def applyRegOp (tr : String → Bool) (p : RegOp × ConnectionState)
    (s : ConnectorState) : ConnectorState :=
  match p.1 with
  | .sub topic qos handler =>
      (subscribe tr { s with connState := p.2 } topic qos handler).2
  | .unsub topic => (unsubscribe { s with connState := p.2 } topic).2

/-- Run a sequence of registry calls, each in its own connection state. -/
def runRegOps (tr : String → Bool) (s : ConnectorState)
    (ops : List (RegOp × ConnectionState)) : ConnectorState :=
  ops.foldl (fun acc p => applyRegOp tr p acc) s

/-- Modelled from the spec: one step of the claimed net effect of a call
sequence on the desired-subscription set — a subscribe inserts or replaces
the entry for its topic filter, an unsubscribe removes it. -/
def regStep (acc : List Subscription) (op : RegOp) : List Subscription :=
  match op with
  | .sub topic qos handler => insertReplace acc ⟨topic, qos, handler⟩
  | .unsub topic => removeFilter acc topic

/-- Modelled from the spec: the net effect of a call sequence applied in
order to an initially empty desired-subscription set.  This definition
follows the specification sentence, to be compared with the Registry the
modelled operations produce. -/
def netEffect (ops : List RegOp) : List Subscription :=
  ops.foldl regStep []

/-- Number of error-level events in a trace. -/
def errorCount (tr : List LogEvent) : Nat :=
  (tr.filter (fun e => e.level == Level.error)).length

theorem emit_connState (s : ConnectorState) (e : LogEvent) :
    (emit s e).connState = s.connState := by
  unfold emit; split <;> rfl

theorem emit_registry (s : ConnectorState) (e : LogEvent) :
    (emit s e).registry = s.registry := by
  unfold emit; split <;> rfl

theorem emit_transportSubs (s : ConnectorState) (e : LogEvent) :
    (emit s e).transportSubs = s.transportSubs := by
  unfold emit; split <;> rfl

theorem emit_liveConnections (s : ConnectorState) (e : LogEvent) :
    (emit s e).liveConnections = s.liveConnections := by
  unfold emit; split <;> rfl

theorem emit_outbox (s : ConnectorState) (e : LogEvent) :
    (emit s e).outbox = s.outbox := by
  unfold emit; split <;> rfl

theorem emit_pendingBackoff (s : ConnectorState) (e : LogEvent) :
    (emit s e).pendingBackoff = s.pendingBackoff := by
  unfold emit; split <;> rfl

theorem emit_logCallback (s : ConnectorState) (e : LogEvent) :
    (emit s e).logCallback = s.logCallback := by
  unfold emit; split <;> rfl

theorem emit_trace (s : ConnectorState) (e : LogEvent) :
    (emit s e).trace = s.trace ++ [e] := by
  unfold emit; split <;> rfl

/-- The closed form of `publish` outside the `Connected` state. -/
theorem publish_closed (s : ConnectorState) (m : OutboundMessage)
    (h : s.connState ≠ ConnectionState.Connected) :
    publish s m =
      (Except.error MqttError.NotConnectedError,
        emit s ⟨Level.error, "publish while not connected"⟩) := by
  unfold publish
  rw [if_neg h]

/-- C1: a `publish` call made while the connection state is not `Connected`
returns a `NotConnectedError` failure result (the modelled operation is a
total function, so no exception is raised) and hands no message to the
transport: the outbox, the transport subscriptions, the live-connection
count and the connection state are all unchanged. -/
theorem publish_not_connected_fails (s : ConnectorState) (m : OutboundMessage)
    (h : s.connState ≠ ConnectionState.Connected) :
    (publish s m).1 = Except.error MqttError.NotConnectedError ∧
    (publish s m).2.outbox = s.outbox ∧
    (publish s m).2.transportSubs = s.transportSubs ∧
    (publish s m).2.liveConnections = s.liveConnections ∧
    (publish s m).2.connState = s.connState := by
  rw [publish_closed s m h]
  exact ⟨rfl, emit_outbox .., emit_transportSubs .., emit_liveConnections ..,
    emit_connState ..⟩

theorem publish_not_connected_fails_witness :
    (publish init ⟨"a/b", "payload", 0, false⟩).1
        = Except.error MqttError.NotConnectedError ∧
    (publish init ⟨"a/b", "payload", 0, false⟩).2.outbox = init.outbox :=
  ⟨(publish_not_connected_fails init ⟨"a/b", "payload", 0, false⟩ (by decide)).1,
   (publish_not_connected_fails init ⟨"a/b", "payload", 0, false⟩ (by decide)).2.1⟩

/-- C9: `set_log_callback` replaces the previously registered callback (the
latest registration wins, and the `Option` field holds at most one callback
at a time); a `none` callback disables emission, so an event emitted while
no callback is registered is dropped — it is not delivered then, and after a
later callback registration only newly emitted events are delivered, the
dropped one was never queued. -/
theorem log_callback_latest_wins (s : ConnectorState) (cb1 cb2 : Option Nat)
    (c : Nat) (e e2 : LogEvent) :
    (set_log_callback s cb1).logCallback = cb1 ∧
    (set_log_callback (set_log_callback s cb1) cb2).logCallback = cb2 ∧
    (emit (set_log_callback s none) e).delivered = s.delivered ∧
    (emit (set_log_callback (emit (set_log_callback s none) e) (some c)) e2).delivered
      = s.delivered ++ [(c, e2)] :=
  ⟨rfl, rfl, rfl, rfl⟩

/-- Replacing the pending-backoff flag with `false` is the identity on a
state whose flag is already `false`. -/
theorem clearBackoff_eq_self (s : ConnectorState) (h : s.pendingBackoff = false) :
    { s with pendingBackoff := false } = s := by
  cases s
  simp only at h
  simp [h]

/-- `disconnect` on an already disconnected state only clears the backoff
flag. -/
theorem disconnect_of_disconnected (s : ConnectorState)
    (h : s.connState = ConnectionState.Disconnected) :
    disconnect s = { s with pendingBackoff := false } := by
  unfold disconnect
  rw [if_pos h]

/-- The state after `disconnect` is `Disconnected`. -/
theorem disconnect_connState (s : ConnectorState) :
    (disconnect s).connState = ConnectionState.Disconnected := by
  unfold disconnect
  split
  case isTrue h => exact h
  case isFalse h => rw [emit_connState]

/-- `disconnect` clears the reconnect backoff flag. -/
theorem disconnect_pendingBackoff (s : ConnectorState) :
    (disconnect s).pendingBackoff = false := by
  unfold disconnect
  split
  case isTrue h => rfl
  case isFalse h => rw [emit_pendingBackoff]

/-- C8: `disconnect()` always reaches `Disconnected` and cancels any
in-progress reconnect backoff; it is idempotent (a second call is the
identity); in particular a `disconnect()` issued during `Reconnecting`
never results in `Connected`. -/
theorem disconnect_reaches_disconnected (s : ConnectorState) :
    (disconnect s).connState = ConnectionState.Disconnected ∧
    (disconnect s).pendingBackoff = false ∧
    disconnect (disconnect s) = disconnect s ∧
    (s.connState = ConnectionState.Reconnecting →
      (disconnect s).connState ≠ ConnectionState.Connected) := by
  refine ⟨disconnect_connState s, disconnect_pendingBackoff s, ?_, ?_⟩
  · rw [disconnect_of_disconnected (disconnect s) (disconnect_connState s)]
    exact clearBackoff_eq_self _ (disconnect_pendingBackoff s)
  · intro _
    rw [disconnect_connState s]
    intro hc
    exact absurd hc (by decide)

theorem disconnect_reaches_disconnected_witness :
    (disconnect
        { init with connState := ConnectionState.Reconnecting, pendingBackoff := true
        }).connState ≠ ConnectionState.Connected :=
  (disconnect_reaches_disconnected
    { init with connState := ConnectionState.Reconnecting, pendingBackoff := true }).2.2.2
    rfl

/-- C4: `connect()` is idempotent while the state is already `Connecting` or
`Connected` — the call leaves the Connector state entirely unchanged (so no
second transport connection is opened and the live-connection count is
preserved) and returns the current success when `Connected`, respectively
the in-flight attempt's result when `Connecting`. -/
theorem connect_idempotent (att : Nat → Bool) (tr : String → Bool)
    (maxAttempts : Nat) (s : ConnectorState)
    (h : s.connState = ConnectionState.Connecting ∨
      s.connState = ConnectionState.Connected) :
    (connect att tr maxAttempts s).2 = s ∧
    (connect att tr maxAttempts s).1 =
      (if s.connState = ConnectionState.Connected then true else s.inFlightResult) ∧
    (connect att tr maxAttempts s).2.liveConnections = s.liveConnections := by
  rcases h with h | h
  · have hn : ¬ s.connState = ConnectionState.Connected := by
      rw [h]; decide
    unfold connect
    rw [if_neg hn, if_pos h]
    exact ⟨rfl, by rw [if_neg hn], rfl⟩
  · unfold connect
    rw [if_pos h]
    exact ⟨rfl, by rw [if_pos h], rfl⟩

theorem connect_idempotent_witness :
    (connect (fun _ => false) (fun _ => true) 3
        { init with connState := ConnectionState.Connected }).2
      = { init with connState := ConnectionState.Connected } :=
  (connect_idempotent (fun _ => false) (fun _ => true) 3
    { init with connState := ConnectionState.Connected } (Or.inr rfl)).1

/-- Replaying a list of subscriptions never touches the Registry. -/
theorem replayList_registry (tr : String → Bool) (subs : List Subscription) :
    ∀ s : ConnectorState, (replayList tr subs s).registry = s.registry := by
  induction subs with
  | nil => intro s; rfl
  | cons sub rest ih =>
      intro s
      unfold replayList
      split
      case isTrue h => rw [ih]
      case isFalse h => rw [ih, emit_registry]

/-- Replaying a list of subscriptions never changes the connection state. -/
theorem replayList_connState (tr : String → Bool) (subs : List Subscription) :
    ∀ s : ConnectorState, (replayList tr subs s).connState = s.connState := by
  induction subs with
  | nil => intro s; rfl
  | cons sub rest ih =>
      intro s
      unfold replayList
      split
      case isTrue h => rw [ih]
      case isFalse h => rw [ih, emit_connState]

/-- Inserting an entry leaves it in the Registry, whether it was appended or
replaced an entry with the same filter. -/
theorem mem_insertReplace_self (reg : List Subscription) (sub : Subscription) :
    sub ∈ insertReplace reg sub := by
  unfold insertReplace
  split
  case isTrue h =>
    rw [List.any_eq_true] at h
    obtain ⟨e, he, heq⟩ := h
    rw [List.mem_map]
    refine ⟨e, he, ?_⟩
    rw [if_pos heq]
  case isFalse h =>
    exact List.mem_append_right _ (List.mem_singleton_self sub)

/-- Every entry of the Registry after an insert is an old entry or the
inserted one. -/
theorem mem_insertReplace_elim (reg : List Subscription) (x sub : Subscription)
    (h : sub ∈ insertReplace reg x) : sub ∈ reg ∨ sub = x := by
  unfold insertReplace at h
  split at h
  case isTrue hc =>
    rw [List.mem_map] at h
    obtain ⟨e, he, hef⟩ := h
    by_cases hb : (e.topicFilter == x.topicFilter) = true
    · rw [if_pos hb] at hef
      exact Or.inr hef.symm
    · rw [if_neg hb] at hef
      exact Or.inl (hef ▸ he)
  case isFalse hc =>
    rcases List.mem_append.mp h with h1 | h1
    · exact Or.inl h1
    · exact Or.inr (List.mem_singleton.mp h1)

/-- The Registry after a `subscribe` call: the entry is inserted or replaced
when the filter is valid, and the Registry is untouched when the filter is
malformed — independent of the connection state and of the transport
outcome. -/
theorem subscribeTransport_registry (tr : String → Bool) (topic : String)
    (s1 : ConnectorState) :
    (subscribeTransport tr topic s1).2.registry = s1.registry := by
  unfold subscribeTransport
  split
  case isTrue h =>
    split
    case isTrue ht => rfl
    case isFalse ht => rw [emit_registry]
  case isFalse h => rfl

theorem subscribe_registry (tr : String → Bool) (s : ConnectorState)
    (topic : String) (qos : Nat) (handler : Option Nat) :
    (subscribe tr s topic qos handler).2.registry =
      if validFilter topic then insertReplace s.registry ⟨topic, qos, handler⟩
      else s.registry := by
  unfold subscribe
  split
  case isTrue hv => rw [subscribeTransport_registry]
  case isFalse hv => rw [emit_registry]

/-- The Registry after an `unsubscribe` call: the entry for the filter is
removed, independent of the connection state. -/
theorem unsubscribe_registry (s : ConnectorState) (topic : String) :
    (unsubscribe s topic).2.registry = removeFilter s.registry topic := by
  unfold unsubscribe
  split <;> rfl

/-- C10: at the public surface `subscribe` can be invoked with only a topic
argument — the QoS level and the handler are optional parameters whose
defaults are QoS 0 and no handler (as the example's call
`connector.subscribe("example/topic")` relies on) — and such a call records
a Registry entry for the topic with no handler attached. -/
theorem subscribe_topic_only (tr : String → Bool) (s : ConnectorState) :
    subscribe tr s ("example/topic") = subscribe tr s ("example/topic") 0 none ∧
    (⟨"example/topic", 0, none⟩ : Subscription)
      ∈ (subscribe tr s ("example/topic")).2.registry := by
  refine ⟨rfl, ?_⟩
  rw [subscribe_registry]
  rw [if_pos (show validFilter ("example/topic") = true by decide)]
  exact mem_insertReplace_self ..

/-- C6: a failing `subscribe` does not disturb the Registry's desired
state — a malformed topic filter is rejected with `ConfigurationError`
before any transport interaction (Registry, transport subscriptions and
outbox untouched); for a valid filter the Registry after the call is the
inserted/replaced desired entry regardless of the transport outcome (the
same Registry for any transport oracle), a transport-level failure being
surfaced to the caller as an error result; and a replay never mutates the
Registry. -/
theorem subscribe_failure_atomic (tr tr2 : String → Bool) (s : ConnectorState)
    (topic : String) (qos : Nat) (handler : Option Nat) :
    (validFilter topic = false →
      (subscribe tr s topic qos handler).1 = Except.error MqttError.ConfigurationError ∧
      (subscribe tr s topic qos handler).2.registry = s.registry ∧
      (subscribe tr s topic qos handler).2.transportSubs = s.transportSubs ∧
      (subscribe tr s topic qos handler).2.outbox = s.outbox) ∧
    (validFilter topic = true →
      (subscribe tr s topic qos handler).2.registry
          = insertReplace s.registry ⟨topic, qos, handler⟩ ∧
      (subscribe tr s topic qos handler).2.registry
          = (subscribe tr2 s topic qos handler).2.registry) ∧
    (validFilter topic = true → s.connState = ConnectionState.Connected →
      tr topic = false →
      (subscribe tr s topic qos handler).1 = Except.error MqttError.ConnectionError) ∧
    (replayAll tr s).registry = s.registry := by
  refine ⟨?_, ?_, ?_, ?_⟩
  · intro hv
    have hnv : ¬ (validFilter topic = true) := by rw [hv]; exact Bool.false_ne_true
    unfold subscribe
    rw [if_neg hnv]
    exact ⟨rfl, emit_registry .., emit_transportSubs .., emit_outbox ..⟩
  · intro hv
    rw [subscribe_registry, subscribe_registry, if_pos hv]
    exact ⟨rfl, rfl⟩
  · intro hv hc ht
    unfold subscribe
    rw [if_pos hv]
    unfold subscribeTransport
    rw [if_pos (show ({ s with registry := insertReplace s.registry ⟨topic, qos, handler⟩
      } : ConnectorState).connState = ConnectionState.Connected from hc)]
    rw [if_neg (show ¬ (tr topic = true) by rw [ht]; exact Bool.false_ne_true)]
  · unfold replayAll
    exact replayList_registry tr s.registry s

theorem subscribe_failure_atomic_witness :
    (subscribe (fun _ => false)
        { init with connState := ConnectionState.Connected } ("a/#/b") 0 none).2.registry
      = init.registry ∧
    (subscribe (fun _ => false)
        { init with connState := ConnectionState.Connected } ("a/b") 0 none).1
      = Except.error MqttError.ConnectionError :=
  ⟨((subscribe_failure_atomic (fun _ => false) (fun _ => true)
      { init with connState := ConnectionState.Connected } ("a/#/b") 0 none).1
      (by decide)).2.1,
   (subscribe_failure_atomic (fun _ => false) (fun _ => true)
      { init with connState := ConnectionState.Connected } ("a/b") 0 none).2.2.1
      (by decide) rfl rfl⟩

/-- When every attempt up to the cap fails, no attempt succeeds. -/
theorem firstSuccess_none (att : Nat → Bool) :
    ∀ n k, (∀ j, j < n → att (k + j) = false) → firstSuccess att k n = none := by
  intro n
  induction n with
  | zero => intro k _; rfl
  | succ m ih =>
      intro k h
      have hk : att k = false := by
        have := h 0 (Nat.succ_pos m)
        rwa [Nat.add_zero] at this
      unfold firstSuccess
      rw [if_neg (show ¬ (att k = true) by rw [hk]; exact Bool.false_ne_true)]
      refine ih (k + 1) (fun j hj => ?_)
      have := h (j + 1) (Nat.succ_lt_succ hj)
      rwa [show k + (j + 1) = k + 1 + j by omega] at this

/-- Error counting distributes over trace concatenation. -/
theorem errorCount_append (t1 t2 : List LogEvent) :
    errorCount (t1 ++ t2) = errorCount t1 + errorCount t2 := by
  unfold errorCount
  rw [List.filter_append, List.length_append]

/-- C7: when every reconnection attempt up to the configured cap fails, the
machine transitions to `Failed` and the emitted trace grows by exactly one
error-level event; any `publish` issued afterwards fails with
`NotConnectedError` and hands nothing to the transport. -/
theorem reconnect_exhausted (att : Nat → Bool) (tr : String → Bool)
    (maxAttempts : Nat) (s : ConnectorState)
    (hs : s.connState = ConnectionState.Reconnecting)
    (hfail : ∀ j, j < maxAttempts → att j = false) :
    (reconnect att tr maxAttempts s).connState = ConnectionState.Failed ∧
    errorCount (reconnect att tr maxAttempts s).trace = errorCount s.trace + 1 ∧
    ∀ m : OutboundMessage,
      (publish (reconnect att tr maxAttempts s) m).1
          = Except.error MqttError.NotConnectedError ∧
      (publish (reconnect att tr maxAttempts s) m).2.outbox
          = (reconnect att tr maxAttempts s).outbox := by
  have hnone : firstSuccess att 0 maxAttempts = none :=
    firstSuccess_none att maxAttempts 0
      (fun j hj => by rw [Nat.zero_add]; exact hfail j hj)
  have hred : reconnect att tr maxAttempts s =
      emit
        { s with
          connState := ConnectionState.Failed
          liveConnections := 0
          pendingBackoff := false }
        ⟨Level.error, "connection attempts exhausted"⟩ := by
    unfold reconnect
    rw [if_pos hs]
    unfold connectAttempt
    rw [hnone]
    rfl
  have hcs : (reconnect att tr maxAttempts s).connState = ConnectionState.Failed := by
    rw [hred, emit_connState]
  refine ⟨hcs, ?_, ?_⟩
  · rw [hred, emit_trace, errorCount_append]
    rfl
  · intro m
    have hne : (reconnect att tr maxAttempts s).connState ≠ ConnectionState.Connected := by
      rw [hcs]; decide
    rw [publish_closed _ m hne]
    exact ⟨rfl, emit_outbox ..⟩

theorem reconnect_exhausted_witness :
    (reconnect (fun _ => false) (fun _ => true) 3
        { init with connState := ConnectionState.Reconnecting, pendingBackoff := true
        }).connState = ConnectionState.Failed :=
  (reconnect_exhausted (fun _ => false) (fun _ => true) 3
    { init with connState := ConnectionState.Reconnecting, pendingBackoff := true }
    rfl (fun _ _ => rfl)).1

/-- The Registry after one registry call is exactly one claimed net-effect
step, whatever the connection state at call time and whatever the transport
answers. -/
theorem applyRegOp_registry (tr : String → Bool) (p : RegOp × ConnectionState)
    (s : ConnectorState) (hv : regOpValid p.1 = true) :
    (applyRegOp tr p s).registry = regStep s.registry p.1 := by
  obtain ⟨op, st⟩ := p
  cases op with
  | sub topic qos handler =>
      show (subscribe tr { s with connState := st } topic qos handler).2.registry = _
      rw [subscribe_registry]
      rw [if_pos (show validFilter topic = true from hv)]
      rfl
  | unsub topic =>
      show (unsubscribe { s with connState := st } topic).2.registry = _
      rw [unsubscribe_registry]
      rfl

/-- The Registry produced by a run of registry calls is the fold of the
claimed net-effect steps over the starting Registry. -/
theorem runRegOps_registry (tr : String → Bool)
    (ops : List (RegOp × ConnectionState)) :
    ∀ s : ConnectorState, (∀ p ∈ ops, regOpValid p.1 = true) →
      (runRegOps tr s ops).registry = (ops.map Prod.fst).foldl regStep s.registry := by
  induction ops with
  | nil => intro s _; rfl
  | cons p rest ih =>
      intro s hv
      have h1 : runRegOps tr s (p :: rest) = runRegOps tr (applyRegOp tr p s) rest := rfl
      rw [h1, ih (applyRegOp tr p s) (fun q hq => hv q (List.mem_cons_of_mem p hq))]
      rw [applyRegOp_registry tr p s (hv p (List.mem_cons_self p rest))]
      rfl

/-- C3: for every finite sequence of well-formed subscribe/unsubscribe
calls, each call made in an arbitrary connection state (and with an
arbitrary transport oracle), the Registry starting from the freshly
constructed Connector ends up exactly as the net effect of applying the
calls in order to an initially empty set: the connection state at call time
has no effect on the resulting set. -/
theorem registry_is_net_effect (tr : String → Bool)
    (ops : List (RegOp × ConnectionState))
    (hv : ∀ p ∈ ops, regOpValid p.1 = true) :
    (runRegOps tr init ops).registry = netEffect (ops.map Prod.fst) := by
  rw [runRegOps_registry tr ops init hv]
  rfl

theorem registry_is_net_effect_witness :
    (runRegOps (fun _ => false) init
        [(RegOp.sub ("a/b") 1 (some 7), ConnectionState.Disconnected),
         (RegOp.sub ("c") 0 none, ConnectionState.Connected),
         (RegOp.sub ("a/b") 2 none, ConnectionState.Reconnecting),
         (RegOp.unsub ("c"), ConnectionState.Failed)]).registry
      = netEffect
          [RegOp.sub ("a/b") 1 (some 7), RegOp.sub ("c") 0 none,
           RegOp.sub ("a/b") 2 none, RegOp.unsub ("c")] :=
  registry_is_net_effect (fun _ => false)
    [(RegOp.sub ("a/b") 1 (some 7), ConnectionState.Disconnected),
     (RegOp.sub ("c") 0 none, ConnectionState.Connected),
     (RegOp.sub ("a/b") 2 none, ConnectionState.Reconnecting),
     (RegOp.unsub ("c"), ConnectionState.Failed)]
    (by decide)

/-- Re-subscribing an already registered filter leaves the Registry's filter
list unchanged: the entry is replaced in place, never duplicated. -/
theorem insertReplace_map_of_mem (reg : List Subscription) (x : Subscription)
    (h : x.topicFilter ∈ reg.map Subscription.topicFilter) :
    (insertReplace reg x).map Subscription.topicFilter
      = reg.map Subscription.topicFilter := by
  obtain ⟨e, he, hef⟩ := List.mem_map.mp h
  have hc : (reg.any fun e => e.topicFilter == x.topicFilter) = true :=
    List.any_eq_true.mpr ⟨e, he, beq_iff_eq.mpr hef⟩
  unfold insertReplace
  rw [if_pos hc]
  rw [List.map_map]
  apply List.map_congr_left
  intro a _
  by_cases hb : (a.topicFilter == x.topicFilter) = true
  · show Subscription.topicFilter
      (if a.topicFilter == x.topicFilter then x else a) = a.topicFilter
    rw [if_pos hb]
    exact (beq_iff_eq.mp hb).symm
  · show Subscription.topicFilter
      (if a.topicFilter == x.topicFilter then x else a) = a.topicFilter
    rw [if_neg hb]

/-- Subscribing a fresh filter appends exactly one entry for it. -/
theorem insertReplace_map_of_not_mem (reg : List Subscription) (x : Subscription)
    (h : x.topicFilter ∉ reg.map Subscription.topicFilter) :
    (insertReplace reg x).map Subscription.topicFilter
      = reg.map Subscription.topicFilter ++ [x.topicFilter] := by
  have hc : ¬ (reg.any (fun e => e.topicFilter == x.topicFilter) = true) := by
    intro hany
    obtain ⟨e, he, hb⟩ := List.any_eq_true.mp hany
    exact h (List.mem_map.mpr ⟨e, he, beq_iff_eq.mp hb⟩)
  unfold insertReplace
  rw [if_neg hc, List.map_append]
  rfl

/-- Inserting preserves distinctness of the Registry's filters. -/
theorem nodup_insertReplace (reg : List Subscription) (x : Subscription)
    (h : (reg.map Subscription.topicFilter).Nodup) :
    ((insertReplace reg x).map Subscription.topicFilter).Nodup := by
  by_cases hm : x.topicFilter ∈ reg.map Subscription.topicFilter
  · rw [insertReplace_map_of_mem reg x hm]
    exact h
  · rw [insertReplace_map_of_not_mem reg x hm]
    rw [List.nodup_append]
    exact ⟨h, List.nodup_singleton _,
      fun y hy hya => hm ((List.mem_singleton.mp hya) ▸ hy)⟩

/-- Removing preserves distinctness of the Registry's filters. -/
theorem nodup_removeFilter (reg : List Subscription) (f : String)
    (h : (reg.map Subscription.topicFilter).Nodup) :
    ((removeFilter reg f).map Subscription.topicFilter).Nodup :=
  List.Nodup.sublist
    (List.Sublist.map Subscription.topicFilter (List.filter_sublist reg)) h

theorem replayAll_registry (tr : String → Bool) (s : ConnectorState) :
    (replayAll tr s).registry = s.registry :=
  replayList_registry tr s.registry s

theorem connectAttempt_registry (att : Nat → Bool) (tr : String → Bool)
    (n : Nat) (s : ConnectorState) :
    (connectAttempt att tr n s).2.registry = s.registry := by
  unfold connectAttempt
  split
  case isTrue h => simp only [replayAll_registry, emit_registry]
  case isFalse h => simp only [emit_registry]

theorem connect_registry (att : Nat → Bool) (tr : String → Bool) (n : Nat)
    (s : ConnectorState) : (connect att tr n s).2.registry = s.registry := by
  unfold connect
  split
  case isTrue h => rfl
  case isFalse h =>
    split
    case isTrue h2 => rfl
    case isFalse h2 => simp only [connectAttempt_registry, emit_registry]

theorem transportDrop_registry (r : Bool) (s : ConnectorState) :
    (transportDrop r s).registry = s.registry := by
  unfold transportDrop
  split
  case isTrue h => split <;> simp only [emit_registry]
  case isFalse h => rfl

theorem disconnect_registry (s : ConnectorState) :
    (disconnect s).registry = s.registry := by
  unfold disconnect
  split
  case isTrue h => rfl
  case isFalse h => simp only [emit_registry]

theorem publish_registry (s : ConnectorState) (m : OutboundMessage) :
    (publish s m).2.registry = s.registry := by
  unfold publish
  split
  case isTrue h => rfl
  case isFalse h => rw [emit_registry]

theorem reconnect_registry (att : Nat → Bool) (tr : String → Bool) (n : Nat)
    (s : ConnectorState) : (reconnect att tr n s).registry = s.registry := by
  unfold reconnect
  split
  case isTrue h => rw [connectAttempt_registry]
  case isFalse h => rfl

/-- Every operation preserves distinctness of the Registry's filters. -/
theorem step_nodup (tr : String → Bool) (s : ConnectorState) (op : Op)
    (h : (s.registry.map Subscription.topicFilter).Nodup) :
    ((step tr s op).registry.map Subscription.topicFilter).Nodup := by
  cases op with
  | connectOp att n =>
      show (((connect att tr n s).2.registry).map Subscription.topicFilter).Nodup
      rw [connect_registry]
      exact h
  | subscribeOp topic qos handler =>
      show (((subscribe tr s topic qos handler).2.registry).map
        Subscription.topicFilter).Nodup
      rw [subscribe_registry]
      split
      case isTrue hv => exact nodup_insertReplace _ _ h
      case isFalse hv => exact h
  | unsubscribeOp topic =>
      show (((unsubscribe s topic).2.registry).map Subscription.topicFilter).Nodup
      rw [unsubscribe_registry]
      exact nodup_removeFilter _ _ h
  | publishOp m =>
      show (((publish s m).2.registry).map Subscription.topicFilter).Nodup
      rw [publish_registry]
      exact h
  | disconnectOp =>
      show (((disconnect s).registry).map Subscription.topicFilter).Nodup
      rw [disconnect_registry]
      exact h
  | setCallbackOp cb => exact h
  | dropOp r =>
      show (((transportDrop r s).registry).map Subscription.topicFilter).Nodup
      rw [transportDrop_registry]
      exact h
  | reconnectOp att n =>
      show (((reconnect att tr n s).registry).map Subscription.topicFilter).Nodup
      rw [reconnect_registry]
      exact h

theorem run_nodup (tr : String → Bool) (ops : List Op) :
    ∀ s : ConnectorState, (s.registry.map Subscription.topicFilter).Nodup →
      ((run tr s ops).registry.map Subscription.topicFilter).Nodup := by
  induction ops with
  | nil => intro s h; exact h
  | cons op rest ih =>
      intro s h
      exact ih (step tr s op) (step_nodup tr s op h)

/-- C5: in every state the Connector can reach, the Registry never holds two
entries with the same topic filter; and subscribing a filter that is already
registered replaces that entry — the filter list is unchanged and the entry
now carries the newly supplied QoS and handler. -/
theorem registry_unique_filters (tr : String → Bool) (ops : List Op) :
    ((run tr init ops).registry.map Subscription.topicFilter).Nodup ∧
    ∀ (topic : String) (qos : Nat) (handler : Option Nat),
      validFilter topic = true →
      topic ∈ (run tr init ops).registry.map Subscription.topicFilter →
      ((subscribe tr (run tr init ops) topic qos handler).2.registry.map
          Subscription.topicFilter
        = (run tr init ops).registry.map Subscription.topicFilter ∧
      (⟨topic, qos, handler⟩ : Subscription)
        ∈ (subscribe tr (run tr init ops) topic qos handler).2.registry) := by
  refine ⟨run_nodup tr ops init List.nodup_nil, ?_⟩
  intro topic qos handler hv hm
  rw [subscribe_registry, if_pos hv]
  exact ⟨insertReplace_map_of_mem _ _ hm, mem_insertReplace_self ..⟩

theorem registry_unique_filters_witness :
    (subscribe (fun _ => true)
        (run (fun _ => true) init [Op.subscribeOp ("a/b") 0 (some 1)])
        ("a/b") 2 none).2.registry.map Subscription.topicFilter
      = (run (fun _ => true) init
          [Op.subscribeOp ("a/b") 0 (some 1)]).registry.map Subscription.topicFilter :=
  ((registry_unique_filters (fun _ => true) [Op.subscribeOp ("a/b") 0 (some 1)]).2
    ("a/b") 2 none (by decide) (by decide)).1

theorem addTransportSub_mem_self (ts : List String) (t : String) :
    t ∈ addTransportSub ts t := by
  unfold addTransportSub
  split
  case isTrue h => exact h
  case isFalse h => exact List.mem_append_right _ (List.mem_singleton_self t)

theorem addTransportSub_mem_mono (ts : List String) (t x : String)
    (h : x ∈ ts) : x ∈ addTransportSub ts t := by
  unfold addTransportSub
  split
  case isTrue hc => exact h
  case isFalse hc => exact List.mem_append_left _ h

/-- A replay never drops a transport subscription that was already active. -/
theorem replayList_mono (tr : String → Bool) (subs : List Subscription) :
    ∀ (s : ConnectorState) (x : String), x ∈ s.transportSubs →
      x ∈ (replayList tr subs s).transportSubs := by
  induction subs with
  | nil => intro s x hx; exact hx
  | cons sub rest ih =>
      intro s x hx
      unfold replayList
      split
      case isTrue h => exact ih _ x (addTransportSub_mem_mono _ _ _ hx)
      case isFalse h =>
        refine ih _ x ?_
        rw [emit_transportSubs]
        exact hx

/-- When the transport accepts every subscribe, a replay activates every
listed subscription. -/
theorem replayList_mem (tr : String → Bool) (htr : ∀ t, tr t = true)
    (subs : List Subscription) :
    ∀ (s : ConnectorState) (sub : Subscription), sub ∈ subs →
      sub.topicFilter ∈ (replayList tr subs s).transportSubs := by
  induction subs with
  | nil => intro s sub hsub; exact absurd hsub (List.not_mem_nil sub)
  | cons hd rest ih =>
      intro s sub hsub
      unfold replayList
      rw [if_pos (htr hd.topicFilter)]
      rcases List.mem_cons.mp hsub with heq | hm
      · subst heq
        exact replayList_mono tr rest _ _ (addTransportSub_mem_self ..)
      · exact ih _ sub hm

theorem replayAll_mem (tr : String → Bool) (htr : ∀ t, tr t = true)
    (s : ConnectorState) (sub : Subscription) (hsub : sub ∈ s.registry) :
    sub.topicFilter ∈ (replayAll tr s).transportSubs :=
  replayList_mem tr htr s.registry s sub hsub

/-- Modelled from the spec: the replay-completeness invariant — whenever the
connection state is `Connected`, every Registry entry is active on the
transport. -/
def replayComplete (s : ConnectorState) : Prop :=
  s.connState = ConnectionState.Connected →
    ∀ sub ∈ s.registry, sub.topicFilter ∈ s.transportSubs

theorem subscribeTransport_connected (tr : String → Bool) (topic : String)
    (s1 : ConnectorState) (hc : s1.connState = ConnectionState.Connected)
    (ht : tr topic = true) :
    subscribeTransport tr topic s1 =
      (.ok (), { s1 with transportSubs := addTransportSub s1.transportSubs topic }) := by
  unfold subscribeTransport
  rw [if_pos hc, if_pos ht]

theorem subscribeTransport_not_connected (tr : String → Bool) (topic : String)
    (s1 : ConnectorState) (hc : ¬ s1.connState = ConnectionState.Connected) :
    subscribeTransport tr topic s1 = (.ok (), s1) := by
  unfold subscribeTransport
  rw [if_neg hc]

/-- The attempt phase restores replay completeness: on success the whole
Registry is replayed onto the fresh transport, on failure the machine is not
`Connected`. -/
theorem connectAttempt_replayComplete (att : Nat → Bool) (tr : String → Bool)
    (htr : ∀ t, tr t = true) (n : Nat) (s : ConnectorState) :
    replayComplete (connectAttempt att tr n s).2 := by
  unfold connectAttempt
  split
  case isTrue ho =>
    intro _ sub hsub
    rw [replayAll_registry] at hsub
    exact replayAll_mem tr htr _ sub hsub
  case isFalse ho =>
    intro hc2
    rw [emit_connState] at hc2
    exact ConnectionState.noConfusion hc2

/-- Every operation preserves replay completeness when the transport accepts
every subscribe request. -/
theorem step_replayComplete (tr : String → Bool) (htr : ∀ t, tr t = true)
    (s : ConnectorState) (op : Op) (h : replayComplete s) :
    replayComplete (step tr s op) := by
  cases op with
  | connectOp att n =>
      show replayComplete (connect att tr n s).2
      unfold connect
      split
      case isTrue hc => exact h
      case isFalse hc =>
        split
        case isTrue hc2 => exact h
        case isFalse hc2 => exact connectAttempt_replayComplete att tr htr n _
  | subscribeOp topic qos handler =>
      show replayComplete (subscribe tr s topic qos handler).2
      unfold subscribe
      split
      case isTrue hv =>
        by_cases hc : s.connState = ConnectionState.Connected
        · rw [subscribeTransport_connected tr topic
            { s with registry := insertReplace s.registry ⟨topic, qos, handler⟩ }
            hc (htr topic)]
          intro _ sub hsub
          rcases mem_insertReplace_elim s.registry ⟨topic, qos, handler⟩ sub hsub
            with hm | heq
          · exact addTransportSub_mem_mono _ _ _ (h hc sub hm)
          · rw [heq]
            exact addTransportSub_mem_self ..
        · rw [subscribeTransport_not_connected tr topic
            { s with registry := insertReplace s.registry ⟨topic, qos, handler⟩ } hc]
          intro hcc
          exact absurd hcc hc
      case isFalse hv =>
        intro hcc sub hsub
        rw [emit_connState] at hcc
        rw [emit_registry] at hsub
        rw [emit_transportSubs]
        exact h hcc sub hsub
  | unsubscribeOp topic =>
      show replayComplete (unsubscribe s topic).2
      unfold unsubscribe
      split
      case isTrue hc =>
        intro _ sub hsub
        have h1 := List.mem_filter.mp hsub
        exact List.mem_filter.mpr ⟨h hc sub h1.1, h1.2⟩
      case isFalse hc =>
        intro hcc
        exact absurd hcc hc
  | publishOp m =>
      show replayComplete (publish s m).2
      unfold publish
      split
      case isTrue hc => exact fun hcc sub hsub => h hc sub hsub
      case isFalse hc =>
        intro hcc
        rw [emit_connState] at hcc
        exact absurd hcc hc
  | disconnectOp =>
      show replayComplete (disconnect s)
      intro hcc
      rw [disconnect_connState] at hcc
      exact absurd hcc (by decide)
  | setCallbackOp cb => exact fun hcc sub hsub => h hcc sub hsub
  | dropOp r =>
      show replayComplete (transportDrop r s)
      unfold transportDrop
      split
      case isTrue hc =>
        split
        case isTrue hr =>
          intro hcc
          rw [emit_connState] at hcc
          exact ConnectionState.noConfusion hcc
        case isFalse hr =>
          intro hcc
          rw [emit_connState] at hcc
          exact ConnectionState.noConfusion hcc
      case isFalse hc => exact h
  | reconnectOp att n =>
      show replayComplete (reconnect att tr n s)
      unfold reconnect
      split
      case isTrue hc => exact connectAttempt_replayComplete att tr htr n s
      case isFalse hc => exact h

theorem run_replayComplete (tr : String → Bool) (htr : ∀ t, tr t = true)
    (ops : List Op) :
    ∀ s : ConnectorState, replayComplete s → replayComplete (run tr s ops) := by
  induction ops with
  | nil => intro s h; exact h
  | cons op rest ih =>
      intro s h
      exact ih (step tr s op) (step_replayComplete tr htr s op h)

/-- C2: whenever the Connector (started fresh and driven by any sequence of
operations, with a transport that accepts every subscribe request) is in the
`Connected` state — in particular right after every successful connect or
reconnect, which replays the whole Registry — every subscription in the
Registry is active on the transport. -/
theorem subscriptions_active_when_connected (tr : String → Bool)
    (ops : List Op) (htr : ∀ t, tr t = true) :
    (run tr init ops).connState = ConnectionState.Connected →
    ∀ sub ∈ (run tr init ops).registry,
      sub.topicFilter ∈ (run tr init ops).transportSubs := by
  refine run_replayComplete tr htr ops init ?_
  intro hcc
  exact absurd hcc (by decide)

theorem subscriptions_active_when_connected_witness :
    ("a/b" ∈ (run (fun _ => true) init
        [Op.connectOp (fun _ => true) 1,
         Op.subscribeOp ("a/b") 1 (some 2)]).transportSubs) :=
  subscriptions_active_when_connected (fun _ => true)
    [Op.connectOp (fun _ => true) 1, Op.subscribeOp ("a/b") 1 (some 2)]
    (fun _ => rfl) (by decide) ⟨"a/b", 1, some 2⟩ (by decide)

end MqttConnector
